import Mathlib

/-!
# Verification of the M5MonsterC5 Cardputer screen/serial core

A shallow embedding of the screen-stack UI runtime of the firmware:
the UART line-consumer callbacks, the periodic refresh-timer callbacks,
the line-pattern extraction code of the wardrive screens, the channel-time
settings screen, the network-info screen, and the screen factories.

Conventions of the embedding:
* C strings become `List Char`; a fixed `char buf[N]` field holds the
  characters up to (excluding) the terminating NUL, so the C invariant
  "null-terminated inside the buffer" becomes `length < N`.
* `strstr`/`strchr` become index-returning searches (`strstrIdx`,
  `strchrIdx`); pointer arithmetic becomes `List.drop`/`List.take`.
* `sscanf` integer scans are modelled faithfully: `%d` skips whitespace,
  accepts an optional sign, and the *return value* counts conversions
  already assigned, so trailing literal text of the format that fails to
  match does not undo earlier assignments.
* External calls with observable effects (draw primitives, clearing the
  line registration, sending commands, freeing blocks, timer teardown)
  are recorded in explicit effect lists.  `ESP_LOG*` calls are not
  modelled: they affect neither screen state nor the display.
* C `int` fields become `Int` (no arithmetic here comes near overflow).
-/

/-- `List Char` of a string literal. -/
def cs (s : String) : List Char := s.data

/-- Does `pat` occur at the head of `l`?  (helper for the `strstr` model). -/
def leadsWith : List Char → List Char → Bool
  | [], _ => true
  | _ :: _, [] => false
  | p :: ps, c :: csx => p = c && leadsWith ps csx

/-- Model of `strstr`: index of the first occurrence of `pat` in `l`. -/
def strstrIdx (l pat : List Char) : Option Nat :=
  if leadsWith pat l then some 0
  else
    match l with
    | [] => none
    | _ :: rest => (strstrIdx rest pat).map (· + 1)

/-- Model of `strchr`: index of the first occurrence of character `c` in `l`. -/
def strchrIdx (l : List Char) (c : Char) : Option Nat :=
  match l with
  | [] => none
  | x :: rest => if x = c then some 0 else (strchrIdx rest c).map (· + 1)

/-- `strstr(l, pat) != NULL`, as a Bool. -/
def hasSub (l pat : List Char) : Bool := (strstrIdx l pat).isSome

/-- C `isspace` (default locale). -/
def isSpaceC (c : Char) : Bool :=
  c = ' ' || c = '\t' || c = '\n' || c = '\x0b' || c = '\x0c' || c = '\r'

/-- C `isdigit`. -/
def isDigitC (c : Char) : Bool := '0' ≤ c && c ≤ '9'

/-- Value of a run of leading digits, with the rest of the input
    (the core of `strtol`/`%d` once positioned at a digit). -/
def digitsVal : List Char → Nat → Nat × List Char
  | [], acc => (acc, [])
  | c :: rest, acc =>
    if isDigitC c then digitsVal rest (acc * 10 + (c.toNat - 48)) else (acc, c :: rest)

/-- Drop leading whitespace (as `%d` does before the number). -/
def skipSpaces : List Char → List Char
  | [] => []
  | c :: rest => if isSpaceC c then skipSpaces rest else c :: rest

/-- One `%d` conversion of `sscanf`: skip whitespace, optional sign, then a
    non-empty digit run; returns the value and the unconsumed rest. -/
def scanInt (s : List Char) : Option (Int × List Char) :=
  match skipSpaces s with
  | [] => none
  | '-' :: r =>
    match r with
    | [] => none
    | c :: _ =>
      if isDigitC c then
        let (v, rest) := digitsVal r 0
        some (-(v : Int), rest)
      else none
  | '+' :: r =>
    match r with
    | [] => none
    | c :: _ =>
      if isDigitC c then
        let (v, rest) := digitsVal r 0
        some ((v : Int), rest)
      else none
  | c :: r =>
    if isDigitC c then
      let (v, rest) := digitsVal (c :: r) 0
      some ((v : Int), rest)
    else none

/-- `sscanf(s, "(%d/%d seconds)", &a, &b) == 2`, for `s` starting at a `'('`.
    Faithful to C `sscanf`: the result counts *assigned* conversions, so the
    trailing `" seconds)"` literal of the format is irrelevant — once both
    `%d` have matched, the call returns 2 whatever follows. -/
def scanParen (s : List Char) : Option (Int × Int) :=
  match s with
  | '(' :: r =>
    match scanInt r with
    | some (n1, r1) =>
      match r1 with
      | '/' :: r2 =>
        match scanInt r2 with
        | some (n2, _) => some (n1, n2)
        | none => none
      | _ => none
    | none => none
  | _ => none

/-- Positions of every `','` in the line (auxiliary, offset-carrying). -/
def commaPositionsAux : List Char → Nat → List Nat
  | [], _ => []
  | c :: rest, i =>
    if c = ',' then i :: commaPositionsAux rest (i + 1)
    else commaPositionsAux rest (i + 1)

/-- Positions of every `','` in the line; `field_starts[k] = pos of k-th comma + 1`. -/
def commaPositions (l : List Char) : List Nat := commaPositionsAux l 0

/-- The MAC-CSV row recognizer shared by both wardrive line callbacks:
    `strlen(line) > 18` with `':'` at offsets 2,5,8,11,14 and `','` at 17. -/
def isCsvRow (l : List Char) : Bool :=
  decide (18 < l.length) && l.get? 2 == some ':' && l.get? 5 == some ':' &&
  l.get? 8 == some ':' && l.get? 11 == some ':' && l.get? 14 == some ':' &&
  l.get? 17 == some ','

/-- Observable external calls made by callbacks and key handlers. -/
inductive Effect
  | draw
  | clearCb
  | pop
  | push
  | sendSetMin (v : Int)
  | sendSetMax (v : Int)
  | setWifi (b : Bool)
deriving DecidableEq, Repr

example : cs "ab" = ['a', 'b'] := by decide
example : strstrIdx (cs "xxLat=1") (cs "Lat=") = some 2 := by decide
example : strchrIdx (cs "ab,cd") ',' = some 2 := by decide
example : scanParen (cs "(7/30 seconds)") = some (7, 30) := by decide
example : scanParen (cs "(7/30 minutes)") = some (7, 30) := by decide
example : scanParen (cs "(soon)") = none := by decide
example : scanParen (cs "(7 30)") = none := by decide
example : commaPositions (cs "a,b,c") = [1, 3] := by decide
example : isCsvRow (cs "AA:BB:CC:DD:EE:FF,GPS fix obtained,x") = true := by decide

/-! ## Wardrive screen (promisc variant) — `wardrive_screen.c` with the
    `start_wardrive_promisc` flow: states, counters, CSV + GPS parsing. -/

/-- `wardrive_state_t` of the promisc wardrive screen. -/
inductive WardriveState
  | waitingGps
  | running
  | gpsLost
deriving DecidableEq, Repr

/-- `wardrive_data_t` of the promisc wardrive screen (timer handle and the
    back-pointer `self` are lifecycle plumbing, modelled as Bools where a
    branch tests them). -/
structure WardriveData where
  state : WardriveState
  last_ssid : List Char
  lat : List Char
  lon : List Char
  gps_wait_elapsed : Int
  gps_wait_timeout : Int
  unique_networks : Int
  needs_redraw : Bool
deriving DecidableEq, Repr

/-- The zero-initialized (`calloc`) context of `wardrive_screen_create`,
    with the explicit initializations applied. -/
def wardrive_init : WardriveData :=
  { state := .waitingGps, last_ssid := [], lat := [], lon := [],
    gps_wait_elapsed := 0, gps_wait_timeout := 0, unique_networks := 0,
    needs_redraw := false }

/-- SSID extraction of the CSV branch: the field between offset 18 and the
    next comma, committed only when non-empty and shorter than the 64-byte
    `last_ssid` buffer. -/
def csvSsidUpdate (l : List Char) (d : WardriveData) : WardriveData :=
  match strchrIdx (l.drop 18) ',' with
  | some k =>
    if 0 < k ∧ k < 64 then { d with last_ssid := (l.drop 18).take k } else d
  | none => d

/-- Lat/lon extraction of the CSV branch: fields 6 and 7 (0-indexed), i.e.
    the text after the 6th resp. 7th comma up to the following comma,
    committed per-field only when non-empty and shorter than the 16-byte
    buffer.  `field_starts[k]` of the C code is `commaPositions l` entry
    `k-1` plus one. -/
def csvLatLonUpdate (l : List Char) (d : WardriveData) : WardriveData :=
  let commas := commaPositions l
  if 8 ≤ commas.length then
    match commas.get? 5, commas.get? 6 with
    | some c6, some c7 =>
      let latS := l.drop (c6 + 1)
      let lonS := l.drop (c7 + 1)
      match strchrIdx latS ',', strchrIdx lonS ',' with
      | some ll, some lo =>
        let d1 := if 0 < ll ∧ ll < 16 then { d with lat := latS.take ll } else d
        if 0 < lo ∧ lo < 16 then { d1 with lon := lonS.take lo } else d1
      | _, _ => d
    | _, _ => d
  else d

/-- The whole CSV branch of the promisc wardrive `uart_line_callback`:
    SSID, then lat/lon, then `unique_networks++` and the dirty flag. -/
def csvBranch (l : List Char) (d : WardriveData) : WardriveData :=
  let d2 := csvLatLonUpdate l (csvSsidUpdate l d)
  { d2 with unique_networks := d2.unique_networks + 1, needs_redraw := true }

/-- The `lon` scan loop of `parse_lat_lon`: length of the prefix of digits
    and `'-'`, where a `'.'` is accepted only when followed by a digit, and
    space / CR / LF terminate. -/
def lonScan : List Char → Nat
  | [] => 0
  | c :: rest =>
    if c = ' ' ∨ c = '\n' ∨ c = '\r' then 0
    else if isDigitC c ∨ c = '-' then 1 + lonScan rest
    else if c = '.' then
      match rest with
      | [] => 0
      | c2 :: _ => if isDigitC c2 then 1 + lonScan rest else 0
    else 0

/-- `parse_lat_lon` of the promisc wardrive screen: `"Lat="` value up to the
    next space (mandatory), then `"Lon="` value scanned by `lonScan`; each
    committed only under its buffer-length check. -/
def parse_lat_lon (s : List Char) (d : WardriveData) : WardriveData :=
  match strstrIdx s (cs "Lat=") with
  | none => d
  | some i =>
    let latStart := (s.drop i).drop 4
    match strchrIdx latStart ' ' with
    | none => d
    | some latLen =>
      let d1 := if latLen < 16 then { d with lat := latStart.take latLen } else d
      let fromLatEnd := latStart.drop latLen
      match strstrIdx fromLatEnd (cs "Lon=") with
      | none => d1
      | some j =>
        let lonStart := (fromLatEnd.drop j).drop 4
        let lonLen := lonScan lonStart
        if 0 < lonLen ∧ lonLen < 16 then { d1 with lon := lonStart.take lonLen }
        else d1

/-- Countdown branch: `strchr` for `'('` in the suffix at the
    `"Still waiting for GPS fix"` match, then the `"(%d/%d seconds)"` scan;
    the dirty flag is set whether or not the scan assigns. -/
def countdownBranch (sw : List Char) (d : WardriveData) : WardriveData :=
  let d1 :=
    match strchrIdx sw '(' with
    | some p =>
      match scanParen (sw.drop p) with
      | some (e, t) => { d with gps_wait_elapsed := e, gps_wait_timeout := t }
      | none => d
    | none => d
  { d1 with needs_redraw := true }

/-- `"Wardrive promisc: %d unique networks"` branch: the count is assigned
    exactly when an integer parses right after the marker (faithful to the
    `sscanf` return-value check). -/
def promiscStatBranch (afterMarker : List Char) (d : WardriveData) : WardriveData :=
  match scanInt afterMarker with
  | some (n, _) => { d with unique_networks := n, needs_redraw := true }
  | none => d

/-- `uart_line_callback` of the promisc wardrive screen: the recognizers in
    source order, each branch returning (early `return` in C).  Logging
    aside, the callback calls no external function, hence the empty effect
    list of every branch. -/
def uart_line_callback_promisc (l : List Char) (d : WardriveData) :
    WardriveData × List Effect :=
  if isCsvRow l then (csvBranch l d, [])
  else
    match strstrIdx l (cs "Still waiting for GPS fix") with
    | some i => (countdownBranch (l.drop i) d, [])
    | none =>
      if hasSub l (cs "GPS fix obtained") then
        ({ parse_lat_lon l { d with state := .running } with needs_redraw := true }, [])
      else if hasSub l (cs "GPS fix lost") then
        ({ d with state := .gpsLost, needs_redraw := true }, [])
      else if hasSub l (cs "GPS fix recovered") then
        ({ parse_lat_lon l { d with state := .running } with needs_redraw := true }, [])
      else
        match strstrIdx l (cs "Wardrive promisc:") with
        | some i => (promiscStatBranch ((l.drop i).drop 17) d, [])
        | none => (d, [])

/-- `refresh_timer_callback`, byte-identical in the promisc wardrive screen
    and the handshaker screen: when the context and `self` pointers are
    non-NULL and the dirty flag is set, it clears the flag and calls
    `draw_screen` — a draw from the timer-service context.  Result: the new
    `needs_redraw` value and the effects. -/
def refresh_timer_callback (dataPresent needsRedraw selfPresent : Bool) :
    Bool × List Effect :=
  if dataPresent && needsRedraw && selfPresent then (false, [Effect.draw])
  else (needsRedraw, [])

example :
    (uart_line_callback_promisc (cs "Still waiting for GPS fix... (7/30 seconds)") wardrive_init).1.gps_wait_elapsed = 7 := by
  decide
example :
    (uart_line_callback_promisc (cs "Still waiting for GPS fix... (7/30 minutes)") wardrive_init).1.gps_wait_timeout = 30 := by
  decide
example :
    (parse_lat_lon (cs "Lat=12.345 Lon=-6.78") wardrive_init).lat = cs "12.345" := by
  decide
example :
    (parse_lat_lon (cs "Lat=12.345 Lon=-6.78.") wardrive_init).lon = cs "-6.78" := by
  decide
example :
    (uart_line_callback_promisc (cs "AA:BB:CC:DD:EE:FF,Home,[WPA2],2024,6,-60,12.3,4.5,10,5,WIFI") wardrive_init).1.lat = cs "12.3" := by
  decide

/-! ## Wardrive screen (plain variant) — `src/main/screens/wardrive_screen.c`:
    the `start_wardrive` flow with the `"GPS: Lat="` branch and the
    `"Logged ... networks to ..."` branch.  Its CSV branch extracts only the
    SSID and deliberately does *not* return ("Don't return - still process
    the line for other patterns"). -/

/-- `wardrive_state_t` of the plain wardrive screen (two states only). -/
inductive WPlainState
  | waitingGps
  | running
deriving DecidableEq, Repr

/-- `wardrive_data_t` of the plain wardrive screen. -/
structure WPlainData where
  state : WPlainState
  last_log_line : List Char
  last_ssid : List Char
  lat : List Char
  lon : List Char
  needs_redraw : Bool
deriving DecidableEq, Repr

/-- Zero-initialized context of the plain `wardrive_screen_create`. -/
def wplain_init : WPlainData :=
  { state := .waitingGps, last_log_line := [], last_ssid := [], lat := [],
    lon := [], needs_redraw := false }

/-- CSV fall-through branch of the plain callback: commit the SSID (with the
    dirty flag) only under the emptiness and 64-byte checks, then continue. -/
def wplainCsvSsid (l : List Char) (d : WPlainData) : WPlainData :=
  match strchrIdx (l.drop 18) ',' with
  | some k =>
    if 0 < k ∧ k < 64 then
      { d with last_ssid := (l.drop 18).take k, needs_redraw := true }
    else d
  | none => d

/-- Is the character one the `"Logged"` branch trims from the end? -/
def isTrimC (c : Char) : Bool := c = '\n' || c = '\r' || c = ' '

/-- Trailing-whitespace trim of `last_log_line`: removes trailing `'\n'`,
    `'\r'`, `' '` but never the character at index 0 (`end > start`). -/
def trimTrail (s : List Char) : List Char :=
  match s with
  | [] => []
  | c :: rest => c :: (rest.reverse.dropWhile isTrimC).reverse

/-- The `"GPS: Lat="` branch body of the plain callback, given the suffix
    after the marker: lat up to a mandatory space; lon after a `"Lon="`
    marker up to a mandatory space; dirty flag set when the lat terminator
    was found, whether or not the values fit. -/
def wplainGpsBranch (afterMarker : List Char) (d : WPlainData) : WPlainData :=
  match strchrIdx afterMarker ' ' with
  | none => d
  | some latLen =>
    let d1 := if latLen < 16 then { d with lat := afterMarker.take latLen } else d
    let fromLatEnd := afterMarker.drop latLen
    let d2 :=
      match strstrIdx fromLatEnd (cs "Lon=") with
      | some j =>
        let lonStart := (fromLatEnd.drop j).drop 4
        match strchrIdx lonStart ' ' with
        | some lonLen =>
          if lonLen < 16 then { d1 with lon := lonStart.take lonLen } else d1
        | none => d1
      | none => d1
    { d2 with needs_redraw := true }

/-- The `"Logged "` branch of the plain callback, given the suffix at the
    match: requires `"networks to"` in the suffix, stores up to 127 chars
    and trims the stored copy. -/
def wplainLoggedBranch (found : List Char) (d : WPlainData) : WPlainData :=
  if hasSub found (cs "networks to") then
    { d with last_log_line := trimTrail (found.take 127), needs_redraw := true }
  else d

/-- State after the (non-returning) CSV fall-through block of the plain
    wardrive callback: the SSID commit when the line is a MAC-CSV row,
    untouched otherwise. -/
def wplainAfterCsv (l : List Char) (d : WPlainData) : WPlainData :=
  if isCsvRow l then wplainCsvSsid l d else d

/-- `uart_line_callback` of the plain wardrive screen.  The CSV SSID branch
    falls through (no early return); the `"GPS fix obtained"`, `"GPS: Lat="`
    branches return; otherwise the `"Logged "` branch runs.  No external
    call is made, hence the empty effect lists. -/
def uart_line_callback_plain (l : List Char) (d : WPlainData) :
    WPlainData × List Effect :=
  let d0 := wplainAfterCsv l d
  if hasSub l (cs "GPS fix obtained") then
    ({ d0 with state := .running, needs_redraw := true }, [])
  else
    match strstrIdx l (cs "GPS: Lat=") with
    | some i => (wplainGpsBranch ((l.drop i).drop 9) d0, [])
    | none =>
      match strstrIdx l (cs "Logged ") with
      | some i => (wplainLoggedBranch (l.drop i) d0, [])
      | none => (d0, [])

example :
    (uart_line_callback_plain (cs "GPS: Lat=12.345 Lon=-6.78 ") wplain_init).1.lon = cs "-6.78" := by
  decide
example :
    (uart_line_callback_plain (cs "GPS: Lat=12.345 Lon=-6.78") wplain_init).1.lon = [] := by
  decide
example :
    (uart_line_callback_plain (cs "AA:BB:CC:DD:EE:FF,GPS fix obtained,x") wplain_init).1.state = WPlainState.running := by
  decide
example :
    (uart_line_callback_plain (cs "AA:BB:CC:DD:EE:FF,GPS fix obtained,x") wplain_init).1.last_ssid = cs "GPS fix obtained" := by
  decide

/-! ## Channel-time settings screen — `channel_time_settings_screen.c`:
    response parsing with positional fallback, validation, and the
    ENTER/SPACE save path. -/

/-- `channel_time_data_t`. -/
structure ChannelTimeData where
  min_value : Int
  max_value : Int
  edited_min : Int
  edited_max : Int
  selected_field : Int
  loading : Bool
  loading_count : Int
  saved : Bool
  needs_redraw : Bool
  status_msg : List Char
deriving DecidableEq, Repr

/-- Context as initialized by `channel_time_settings_screen_create` (also
    the shape `on_resume` resets to, with the loaded values instead of the
    100/300 defaults). -/
def channel_time_init : ChannelTimeData :=
  { min_value := 100, max_value := 300, edited_min := 100, edited_max := 300,
    selected_field := 0, loading := true, loading_count := 2, saved := false,
    needs_redraw := false, status_msg := [] }

/-- `parse_integer_response`: skip leading whitespace, skip to the first
    digit, `strtol` the digit run; `-1` when the line has no digit.  (The
    scan to the first digit makes the result non-negative whenever it is
    not `-1`.) -/
def parse_integer_response (l : List Char) : Int :=
  match (skipSpaces l).dropWhile (fun c => !isDigitC c) with
  | [] => -1
  | c :: rest => ((digitsVal (c :: rest) 0).1 : Int)

/-- `validate_values`: `none` when the edited pair is valid, otherwise the
    status message the C code writes (range checks first, then ordering). -/
def validate_values (d : ChannelTimeData) : Option (List Char) :=
  if d.edited_min < 100 ∨ 1500 < d.edited_min then some (cs "Min must be 100-1500 ms")
  else if d.edited_max < 100 ∨ 1500 < d.edited_max then some (cs "Max must be 100-1500 ms")
  else if d.edited_max ≤ d.edited_min then some (cs "Min must be < Max")
  else none

/-- Field-update part of `on_uart_response`: a labelled `"min"` / `"max"`
    response updates the matching value pair; an unlabelled response with a
    digit updates positionally (`loading_count` 2 → min, 1 → max). -/
def on_uart_response_update (l : List Char) (d : ChannelTimeData) : ChannelTimeData :=
  if hasSub l (cs "min") then
    let v := parse_integer_response l
    if 0 ≤ v then
      { d with min_value := v, edited_min := v, loading_count := d.loading_count - 1 }
    else d
  else if hasSub l (cs "max") then
    let v := parse_integer_response l
    if 0 ≤ v then
      { d with max_value := v, edited_max := v, loading_count := d.loading_count - 1 }
    else d
  else
    let v := parse_integer_response l
    if 0 ≤ v ∧ 0 < d.loading_count then
      if d.loading_count = 2 then
        { d with min_value := v, edited_min := v, loading_count := d.loading_count - 1 }
      else if d.loading_count = 1 then
        { d with max_value := v, edited_max := v, loading_count := d.loading_count - 1 }
      else d
    else d

/-- `on_uart_response`: ignore lines once no response is pending, apply the
    labelled/positional update, and when the count reaches zero end the
    loading state and clear the line registration. -/
def on_uart_response (l : List Char) (d : ChannelTimeData) :
    ChannelTimeData × List Effect :=
  if d.loading_count ≤ 0 then (d, [])
  else
    let d1 := on_uart_response_update l d
    if d1.loading_count = 0 then
      ({ d1 with loading := false, status_msg := [], needs_redraw := true },
       [Effect.clearCb])
    else (d1, [])

/-- The key codes the channel-time `on_key` distinguishes. -/
inductive Key
  | up
  | down
  | left
  | right
  | enter
  | space
  | esc
  | q
  | backspace
  | other
deriving DecidableEq, Repr

/-- `on_key` of the channel-time screen.  `ok1`/`ok2` are the status results
    of the two `uart_send_command` calls of the save path (both commands are
    always sent once validation passes — the sends happen before the status
    check and are never repeated inside the handler). -/
def on_key_channel_time (d : ChannelTimeData) (k : Key) (ok1 ok2 : Bool) :
    ChannelTimeData × List Effect :=
  if d.loading then
    if k = Key.esc ∨ k = Key.q ∨ k = Key.backspace then (d, [Effect.clearCb, Effect.pop])
    else (d, [])
  else
    match k with
    | Key.up =>
      let sf := if 0 < d.selected_field then d.selected_field - 1 else 1
      ({ d with selected_field := sf, saved := false, status_msg := [] }, [Effect.draw])
    | Key.down =>
      let sf := if d.selected_field < 1 then d.selected_field + 1 else 0
      ({ d with selected_field := sf, saved := false, status_msg := [] }, [Effect.draw])
    | Key.left =>
      if d.selected_field = 0 then
        ({ d with edited_min := max (d.edited_min - 10) 100, saved := false,
                  status_msg := [] }, [Effect.draw])
      else
        ({ d with edited_max := max (d.edited_max - 10) 100, saved := false,
                  status_msg := [] }, [Effect.draw])
    | Key.right =>
      if d.selected_field = 0 then
        ({ d with edited_min := min (d.edited_min + 10) 1500, saved := false,
                  status_msg := [] }, [Effect.draw])
      else
        ({ d with edited_max := min (d.edited_max + 10) 1500, saved := false,
                  status_msg := [] }, [Effect.draw])
    | Key.enter =>
      match validate_values d with
      | some msg => ({ d with status_msg := msg }, [Effect.draw])
      | none =>
        let eff := [Effect.sendSetMin d.edited_min, Effect.sendSetMax d.edited_max,
                    Effect.draw]
        if ok1 && ok2 then
          ({ d with min_value := d.edited_min, max_value := d.edited_max,
                    saved := true, status_msg := [] }, eff)
        else ({ d with status_msg := cs "Send failed!" }, eff)
    | Key.space =>
      match validate_values d with
      | some msg => ({ d with status_msg := msg }, [Effect.draw])
      | none =>
        let eff := [Effect.sendSetMin d.edited_min, Effect.sendSetMax d.edited_max,
                    Effect.draw]
        if ok1 && ok2 then
          ({ d with min_value := d.edited_min, max_value := d.edited_max,
                    saved := true, status_msg := [] }, eff)
        else ({ d with status_msg := cs "Send failed!" }, eff)
    | Key.esc => (d, [Effect.clearCb, Effect.pop])
    | Key.q => (d, [Effect.clearCb, Effect.pop])
    | Key.backspace => (d, [Effect.clearCb, Effect.pop])
    | Key.other => (d, [])

example : parse_integer_response (cs "min: 100") = 100 := by decide
example : parse_integer_response (cs "max: 300") = 300 := by decide
example : parse_integer_response (cs "ok") = -1 := by decide
example :
    (on_uart_response (cs "min: 100")
      (on_uart_response (cs "max: 300") channel_time_init).1).1.min_value = 100 := by
  decide
example :
    (on_uart_response (cs "min: 100")
      (on_uart_response (cs "max: 300") channel_time_init).1).1.loading = false := by
  decide

/-! ## Network-info screen — `network_info_screen.c`: connection-result
    callback and lifecycle. -/

/-- `info_state_t`. -/
inductive InfoState
  | view
  | connecting
  | result
deriving DecidableEq, Repr

/-- `network_info_data_t` (the copied `wifi_network_t` is opaque to the
    properties verified here and is omitted). -/
structure NetworkInfoData where
  password : List Char
  state : InfoState
  success : Bool
  result_msg : List Char
  needs_redraw : Bool
  needs_push_password : Bool
deriving DecidableEq, Repr

/-- `uart_line_callback` of the network-info screen: only in the connecting
    state, a `"SUCCESS:"`+`"Connected"` line or a `"FAILED:"` line moves to
    the result state, records the message, updates the bridge's
    wifi-connected flag and sets the dirty flag.  No draw call. -/
def uart_line_callback_netinfo (l : List Char) (d : NetworkInfoData) :
    NetworkInfoData × List Effect :=
  if d.state ≠ InfoState.connecting then (d, [])
  else if hasSub l (cs "SUCCESS:") && hasSub l (cs "Connected") then
    ({ d with success := true, result_msg := cs "Connected!",
              state := .result, needs_redraw := true }, [Effect.setWifi true])
  else if hasSub l (cs "FAILED:") then
    ({ d with success := false, result_msg := cs "Connection failed",
              state := .result, needs_redraw := true }, [Effect.setWifi false])
  else (d, [])

/-! ## `on_destroy` teardown order — wardrive (both variants share the same
    handler body), channel-time and network-info screens. -/

/-- Teardown-relevant calls of an `on_destroy` handler, in order. -/
inductive DEv
  | timerStop
  | timerDelete
  | clearCb
  | freeData
deriving DecidableEq, Repr

/-- `on_destroy` of the wardrive screens (identical in both variants):
    stop+delete the timer if context and timer handle are non-NULL, clear
    the line registration, then free the context if non-NULL. -/
def wardrive_on_destroy (dataPresent timerPresent : Bool) : List DEv :=
  (if dataPresent && timerPresent then [DEv.timerStop, DEv.timerDelete] else []) ++
  [DEv.clearCb] ++
  (if dataPresent then [DEv.freeData] else [])

/-- `on_destroy` of the channel-time screen: clear the registration, then
    free `user_data` if non-NULL. -/
def channel_time_on_destroy (dataPresent : Bool) : List DEv :=
  [DEv.clearCb] ++ (if dataPresent then [DEv.freeData] else [])

/-- `on_destroy` of the network-info screen: clear the registration, then
    free the context if non-NULL. -/
def network_info_on_destroy (dataPresent : Bool) : List DEv :=
  [DEv.clearCb] ++ (if dataPresent then [DEv.freeData] else [])

/-- The teardown-ordering property of a destroy trace: after the first
    `freeData` nothing but further frees occurs, and whenever a `freeData`
    occurs at all, the registration clear — and, when `needTimer`, the
    timer stop and delete — occur strictly before it. -/
def destroy_ok (needTimer : Bool) (t : List DEv) : Bool :=
  let pre := t.takeWhile (fun e => e ≠ DEv.freeData)
  ((t.dropWhile (fun e => e ≠ DEv.freeData)).all (fun e => e = DEv.freeData)) &&
  (!(t.contains DEv.freeData) ||
    (pre.contains DEv.clearCb &&
      (!needTimer || (pre.contains DEv.timerStop && pre.contains DEv.timerDelete))))

/-! ## Screen factories — `text_input_screen.c` and
    `network_info_screen.c`: params ownership. -/

/-- Memory-management calls of a factory, in order. -/
inductive FEv
  | freeParams
  | freeScreen
deriving DecidableEq, Repr

/-- `text_input_screen_create`, abstracted over whether the params pointer
    is non-NULL and whether the two allocations succeed.  Result: whether a
    screen (non-NULL) is returned, plus the frees performed. -/
def text_input_screen_create (paramsPresent screenOk dataOk : Bool) :
    Bool × List FEv :=
  if !paramsPresent then (false, [])
  else if !screenOk then (false, [FEv.freeParams])
  else if !dataOk then (false, [FEv.freeScreen, FEv.freeParams])
  else (true, [FEv.freeParams])

/-- `network_info_screen_create`: additionally rejects a params block whose
    `network` pointer is NULL, freeing the block on that path too. -/
def network_info_screen_create (paramsPresent networkPresent screenOk dataOk : Bool) :
    Bool × List FEv :=
  if !paramsPresent || !networkPresent then
    (false, if paramsPresent then [FEv.freeParams] else [])
  else if !screenOk then (false, [FEv.freeParams])
  else if !dataOk then (false, [FEv.freeScreen, FEv.freeParams])
  else (true, [FEv.freeParams])

example : destroy_ok true (wardrive_on_destroy true true) = true := by decide
example : (text_input_screen_create true true true).2.count FEv.freeParams = 1 := by decide
example : (network_info_screen_create true false true true).1 = false := by decide

/-! ## Helper lemmas -/

/-- The promisc wardrive line callback performs no external call at all. -/
theorem promisc_cb_effects (l : List Char) (d : WardriveData) :
    (uart_line_callback_promisc l d).2 = [] := by
  unfold uart_line_callback_promisc
  split
  · rfl
  · split
    · rfl
    · split
      · rfl
      · split
        · rfl
        · split
          · rfl
          · split <;> rfl

/-- The plain wardrive line callback performs no external call at all. -/
theorem plain_cb_effects (l : List Char) (d : WPlainData) :
    (uart_line_callback_plain l d).2 = [] := by
  unfold uart_line_callback_plain
  split
  · rfl
  · split
    · rfl
    · split
      · rfl
      · rfl

/-- The channel-time response callback's only external call is clearing the
    line registration once loading completes. -/
theorem on_uart_response_effects (l : List Char) (d : ChannelTimeData) :
    (on_uart_response l d).2 = [] ∨ (on_uart_response l d).2 = [Effect.clearCb] := by
  unfold on_uart_response
  split
  · exact Or.inl rfl
  · by_cases h : (on_uart_response_update l d).loading_count = 0
    · exact Or.inr (by simp [h])
    · exact Or.inl (by simp [h])

/-- The network-info line callback's only external call is the
    wifi-connected flag update of the bridge. -/
theorem netinfo_cb_effects (l : List Char) (d : NetworkInfoData) :
    (uart_line_callback_netinfo l d).2 = [] ∨
    (uart_line_callback_netinfo l d).2 = [Effect.setWifi true] ∨
    (uart_line_callback_netinfo l d).2 = [Effect.setWifi false] := by
  unfold uart_line_callback_netinfo
  split
  · exact Or.inl rfl
  · split
    · exact Or.inr (Or.inl rfl)
    · split
      · exact Or.inr (Or.inr rfl)
      · exact Or.inl rfl

/-! ## Claim theorems -/

/-- C1: for every screen holding a line-consumer registration or a periodic
    refresh timer (the wardrive screens — both variants share the handler —,
    the channel-time settings screen, the network-info screen), `on_destroy`
    clears the registration, and stops and deletes the timer, strictly
    before freeing the context block; on no path is the block freed first,
    and it is freed at most once. -/
theorem c1_on_destroy_teardown_before_free :
    ∀ dataPresent timerPresent : Bool,
      destroy_ok (dataPresent && timerPresent)
        (wardrive_on_destroy dataPresent timerPresent) = true ∧
      destroy_ok false (channel_time_on_destroy dataPresent) = true ∧
      destroy_ok false (network_info_on_destroy dataPresent) = true ∧
      (wardrive_on_destroy dataPresent timerPresent).count DEv.freeData ≤ 1 ∧
      (channel_time_on_destroy dataPresent).count DEv.freeData ≤ 1 ∧
      (network_info_on_destroy dataPresent).count DEv.freeData ≤ 1 := by
  decide

/-- C2 counterexample: the claim says the periodic refresh-timer callbacks
    never invoke a draw primitive — but `refresh_timer_callback` (wardrive
    and handshaker screens) calls `draw_screen` from the timer-service
    context as soon as its context, dirty flag and `self` pointer are all
    set. -/
theorem c2_timer_callback_draws_counterexample :
    Effect.draw ∈ (refresh_timer_callback true true true).2 := by
  decide

/-- C2 (amended): the registered UART line-consumer callbacks never invoke
    a draw primitive — besides writing their own context fields and the
    dirty flag they at most clear their own registration (channel-time) or
    update the bridge's wifi-connected flag (network-info); the periodic
    refresh-timer callbacks, however, DO call the screen's draw function,
    exactly when the context, the dirty flag and `self` are all set,
    clearing the flag first. -/
theorem c2_no_draw_outside_tick_amended :
    (∀ (l : List Char) (d : WardriveData),
      Effect.draw ∉ (uart_line_callback_promisc l d).2) ∧
    (∀ (l : List Char) (d : WPlainData),
      Effect.draw ∉ (uart_line_callback_plain l d).2) ∧
    (∀ (l : List Char) (d : ChannelTimeData),
      Effect.draw ∉ (on_uart_response l d).2) ∧
    (∀ (l : List Char) (d : NetworkInfoData),
      Effect.draw ∉ (uart_line_callback_netinfo l d).2) ∧
    (∀ dp nr sp : Bool,
      (Effect.draw ∈ (refresh_timer_callback dp nr sp).2 ↔
        dp = true ∧ nr = true ∧ sp = true) ∧
      (refresh_timer_callback dp nr sp).1 = (!(dp && nr && sp) && nr)) := by
  refine ⟨?_, ?_, ?_, ?_, by decide⟩
  · intro l d
    rw [promisc_cb_effects]
    simp
  · intro l d
    rw [plain_cb_effects]
    simp
  · intro l d
    rcases on_uart_response_effects l d with h | h <;> rw [h] <;> simp
  · intro l d
    rcases netinfo_cb_effects l d with h | h | h <;> rw [h] <;> simp

/-- C9: every non-null params block passed to `text_input_screen_create` or
    `network_info_screen_create` is freed exactly once on every path —
    success, screen-allocation failure, context-allocation failure, and
    (network-info) invalid-parameter rejection — and the factory returns
    null exactly on the failure paths. -/
theorem c9_factory_params_freed_exactly_once :
    ∀ networkPresent screenOk dataOk : Bool,
      (text_input_screen_create true screenOk dataOk).2.count FEv.freeParams = 1 ∧
      (text_input_screen_create true screenOk dataOk).1 = (screenOk && dataOk) ∧
      (network_info_screen_create true networkPresent screenOk dataOk).2.count
        FEv.freeParams = 1 ∧
      (network_info_screen_create true networkPresent screenOk dataOk).1 =
        (networkPresent && screenOk && dataOk) := by
  decide

/-- C7 counterexample: the claim says parentheses that do not match the
    `"(N/M seconds)"` pattern leave the prior elapsed/timeout unchanged, but
    `sscanf` counts conversions already assigned: on
    `"Still waiting for GPS fix... (7/30 minutes)"` (no `"seconds"` in the
    line at all) both integers are assigned before the literal mismatch, so
    the fields are updated from 0/0 to 7/30. -/
theorem c7_countdown_minutes_counterexample :
    hasSub (cs "Still waiting for GPS fix... (7/30 minutes)") (cs "seconds") = false ∧
    wardrive_init.gps_wait_elapsed = 0 ∧
    wardrive_init.gps_wait_timeout = 0 ∧
    (uart_line_callback_promisc (cs "Still waiting for GPS fix... (7/30 minutes)")
      wardrive_init).1.gps_wait_elapsed = 7 ∧
    (uart_line_callback_promisc (cs "Still waiting for GPS fix... (7/30 minutes)")
      wardrive_init).1.gps_wait_timeout = 30 := by
  decide

/-- C7 (amended): `"Still waiting for GPS fix... (7/30 seconds)"` sets
    elapsed 7 and timeout 30; a `"Still waiting"` line without a
    parenthesized pair — no `'('` at all, or a `'('` not followed by two
    `'/'`-separated integers — leaves both values unchanged; but any
    `"(N/M"` integer pair after the `'('` updates the values even when the
    rest of the `"(N/M seconds)"` pattern does not match (the `sscanf`
    return value counts conversions already assigned). -/
theorem c7_countdown_parse_amended :
    (∀ d : WardriveData,
      (uart_line_callback_promisc (cs "Still waiting for GPS fix... (7/30 seconds)")
        d).1.gps_wait_elapsed = 7 ∧
      (uart_line_callback_promisc (cs "Still waiting for GPS fix... (7/30 seconds)")
        d).1.gps_wait_timeout = 30) ∧
    (∀ d : WardriveData,
      (uart_line_callback_promisc (cs "Still waiting for GPS fix...")
        d).1.gps_wait_elapsed = d.gps_wait_elapsed ∧
      (uart_line_callback_promisc (cs "Still waiting for GPS fix...")
        d).1.gps_wait_timeout = d.gps_wait_timeout) ∧
    (∀ d : WardriveData,
      (uart_line_callback_promisc (cs "Still waiting for GPS fix... (soon)")
        d).1.gps_wait_elapsed = d.gps_wait_elapsed ∧
      (uart_line_callback_promisc (cs "Still waiting for GPS fix... (soon)")
        d).1.gps_wait_timeout = d.gps_wait_timeout) ∧
    (∀ d : WardriveData,
      (uart_line_callback_promisc (cs "Still waiting for GPS fix... (7/30")
        d).1.gps_wait_elapsed = 7 ∧
      (uart_line_callback_promisc (cs "Still waiting for GPS fix... (7/30")
        d).1.gps_wait_timeout = 30) := by
  exact ⟨fun d => ⟨rfl, rfl⟩, fun d => ⟨rfl, rfl⟩, fun d => ⟨rfl, rfl⟩,
    fun d => ⟨rfl, rfl⟩⟩

/-- C4 counterexample: in the plain wardrive screen's `"GPS: Lat="` branch
    the lon value must be space-terminated; on a line containing
    `"Lat=12.345 Lon=-6.78"` that ends at `"-6.78"`, lat is updated but lon
    keeps its prior value — the claim expects lon = "-6.78" for every
    wardrive screen. -/
theorem c4_plain_gps_lon_eol_counterexample :
    hasSub (cs "GPS: Lat=12.345 Lon=-6.78") (cs "Lat=12.345 Lon=-6.78") = true ∧
    (uart_line_callback_plain (cs "GPS: Lat=12.345 Lon=-6.78")
      { wplain_init with lon := cs "9.9" }).1.lat = cs "12.345" ∧
    (uart_line_callback_plain (cs "GPS: Lat=12.345 Lon=-6.78")
      { wplain_init with lon := cs "9.9" }).1.lon = cs "9.9" ∧
    cs "9.9" ≠ cs "-6.78" := by
  decide

/-- C4 (amended): in the promisc wardrive screen's `parse_lat_lon`,
    `"Lat=12.345 Lon=-6.78"` yields lat "12.345" and lon "-6.78", the
    trailing-period variant yields the same lon without the period (the
    last field ends at the first character that is not a digit, `'-'`, or a
    `'.'` followed by a digit), and a `"Lat="` value with no terminating
    space leaves the whole context unchanged.  In the plain wardrive
    screen's `"GPS: Lat="` branch, lat and lon are extracted only up to a
    *space* terminator each: the space-terminated line works, but a lon
    value at end of line leaves lon at its prior value, and a `"Lat="`
    value without a space leaves both unchanged. -/
theorem c4_lat_lon_extraction_amended :
    (∀ d : WardriveData,
      (parse_lat_lon (cs "Lat=12.345 Lon=-6.78") d).lat = cs "12.345" ∧
      (parse_lat_lon (cs "Lat=12.345 Lon=-6.78") d).lon = cs "-6.78") ∧
    (∀ d : WardriveData,
      (parse_lat_lon (cs "Lat=12.345 Lon=-6.78.") d).lat = cs "12.345" ∧
      (parse_lat_lon (cs "Lat=12.345 Lon=-6.78.") d).lon = cs "-6.78") ∧
    (∀ d : WardriveData, parse_lat_lon (cs "Lat=12.345") d = d) ∧
    (∀ dp : WPlainData,
      (uart_line_callback_plain (cs "GPS: Lat=12.345 Lon=-6.78 ") dp).1.lat =
        cs "12.345" ∧
      (uart_line_callback_plain (cs "GPS: Lat=12.345 Lon=-6.78 ") dp).1.lon =
        cs "-6.78") ∧
    (∀ dp : WPlainData,
      (uart_line_callback_plain (cs "GPS: Lat=12.345 Lon=-6.78") dp).1.lat =
        cs "12.345" ∧
      (uart_line_callback_plain (cs "GPS: Lat=12.345 Lon=-6.78") dp).1.lon =
        dp.lon) ∧
    (∀ dp : WPlainData,
      (uart_line_callback_plain (cs "GPS: Lat=12.345") dp).1.lat = dp.lat ∧
      (uart_line_callback_plain (cs "GPS: Lat=12.345") dp).1.lon = dp.lon) := by
  exact ⟨fun d => ⟨rfl, rfl⟩, fun d => ⟨rfl, rfl⟩, fun d => rfl,
    fun dp => ⟨rfl, rfl⟩, fun dp => ⟨rfl, rfl⟩, fun dp => ⟨rfl, rfl⟩⟩

/-- C5 counterexample: in the plain wardrive screen, a MAC-CSV row whose
    SSID field is `"GPS fix obtained"` both commits the CSV SSID update and
    triggers the later state-transition recognizer on the same line (the
    CSV branch there deliberately does not return), contradicting the claim
    that every wardrive line callback returns after the CSV branch. -/
theorem c5_plain_csv_fallthrough_counterexample :
    isCsvRow (cs "AA:BB:CC:DD:EE:FF,GPS fix obtained,x") = true ∧
    wplain_init.state = WPlainState.waitingGps ∧
    (uart_line_callback_plain (cs "AA:BB:CC:DD:EE:FF,GPS fix obtained,x")
      wplain_init).1.last_ssid = cs "GPS fix obtained" ∧
    (uart_line_callback_plain (cs "AA:BB:CC:DD:EE:FF,GPS fix obtained,x")
      wplain_init).1.state = WPlainState.running := by
  decide

/-- The CSV SSID commit touches no field but `last_ssid`, and when it does
    write, the new value fits the 64-byte buffer. -/
theorem csvSsidUpdate_fields (l : List Char) (d : WardriveData) :
    (csvSsidUpdate l d).state = d.state ∧
    (csvSsidUpdate l d).lat = d.lat ∧
    (csvSsidUpdate l d).lon = d.lon ∧
    (csvSsidUpdate l d).gps_wait_elapsed = d.gps_wait_elapsed ∧
    (csvSsidUpdate l d).gps_wait_timeout = d.gps_wait_timeout ∧
    (csvSsidUpdate l d).unique_networks = d.unique_networks ∧
    (csvSsidUpdate l d).needs_redraw = d.needs_redraw ∧
    ((csvSsidUpdate l d).last_ssid = d.last_ssid ∨
      (csvSsidUpdate l d).last_ssid.length < 64) := by
  unfold csvSsidUpdate
  cases strchrIdx (l.drop 18) ',' with
  | none => simp
  | some k =>
    by_cases hk : 0 < k ∧ k < 64
    · simp only [hk, if_true]
      refine ⟨rfl, rfl, rfl, rfl, rfl, rfl, rfl, Or.inr ?_⟩
      simp [List.length_take]
      omega
    · simp [hk]

/-- When the SSID field has no terminating comma or does not fit its
    buffer, the CSV SSID commit is the identity. -/
theorem csvSsidUpdate_skip (l : List Char) (d : WardriveData) :
    (strchrIdx (l.drop 18) ',' = none → csvSsidUpdate l d = d) ∧
    (∀ k, strchrIdx (l.drop 18) ',' = some k → 64 ≤ k → csvSsidUpdate l d = d) := by
  constructor
  · intro h
    unfold csvSsidUpdate
    rw [h]
  · intro k h hk
    unfold csvSsidUpdate
    rw [h]
    have : ¬(0 < k ∧ k < 64) := by omega
    simp [this]

/-- The CSV lat/lon commit touches no field but `lat` and `lon`; each of
    those is either unchanged or replaced by a value that fits its 16-byte
    buffer; and with fewer than 8 commas in the line both are unchanged. -/
theorem csvLatLonUpdate_fields (l : List Char) (d : WardriveData) :
    (csvLatLonUpdate l d).state = d.state ∧
    (csvLatLonUpdate l d).last_ssid = d.last_ssid ∧
    (csvLatLonUpdate l d).gps_wait_elapsed = d.gps_wait_elapsed ∧
    (csvLatLonUpdate l d).gps_wait_timeout = d.gps_wait_timeout ∧
    (csvLatLonUpdate l d).unique_networks = d.unique_networks ∧
    (csvLatLonUpdate l d).needs_redraw = d.needs_redraw ∧
    ((csvLatLonUpdate l d).lat = d.lat ∨ (csvLatLonUpdate l d).lat.length < 16) ∧
    ((csvLatLonUpdate l d).lon = d.lon ∨ (csvLatLonUpdate l d).lon.length < 16) ∧
    ((commaPositions l).length < 8 → csvLatLonUpdate l d = d) := by
  unfold csvLatLonUpdate
  by_cases h8 : 8 ≤ (commaPositions l).length
  · have himp : ¬ (commaPositions l).length < 8 := by omega
    simp only [h8, if_true]
    cases h5 : (commaPositions l).get? 5 with
    | none => simp [himp]
    | some c6 =>
      cases h6 : (commaPositions l).get? 6 with
      | none => simp [himp]
      | some c7 =>
        simp only []
        cases hll : strchrIdx (l.drop (c6 + 1)) ',' with
        | none => simp [himp]
        | some ll =>
          cases hlo : strchrIdx (l.drop (c7 + 1)) ',' with
          | none => simp [himp]
          | some lo =>
            simp only []
            by_cases hl : 0 < ll ∧ ll < 16 <;> by_cases ho : 0 < lo ∧ lo < 16
            · rw [if_pos hl, if_pos ho]
              refine ⟨rfl, rfl, rfl, rfl, rfl, rfl, Or.inr ?_, Or.inr ?_,
                fun hc => absurd hc himp⟩
              · show (List.take ll (l.drop (c6 + 1))).length < 16
                simp only [List.length_take]
                omega
              · show (List.take lo (l.drop (c7 + 1))).length < 16
                simp only [List.length_take]
                omega
            · rw [if_pos hl, if_neg ho]
              refine ⟨rfl, rfl, rfl, rfl, rfl, rfl, Or.inr ?_, Or.inl rfl,
                fun hc => absurd hc himp⟩
              show (List.take ll (l.drop (c6 + 1))).length < 16
              simp only [List.length_take]
              omega
            · rw [if_neg hl, if_pos ho]
              refine ⟨rfl, rfl, rfl, rfl, rfl, rfl, Or.inl rfl, Or.inr ?_,
                fun hc => absurd hc himp⟩
              show (List.take lo (l.drop (c7 + 1))).length < 16
              simp only [List.length_take]
              omega
            · rw [if_neg hl, if_neg ho]
              exact ⟨rfl, rfl, rfl, rfl, rfl, rfl, Or.inl rfl, Or.inl rfl,
                fun hc => absurd hc himp⟩
  · simp [h8]

/-- The plain-screen CSV SSID commit touches only `last_ssid` and the dirty
    flag, and any written SSID fits the 64-byte buffer. -/
theorem wplainCsvSsid_fields (l : List Char) (dp : WPlainData) :
    (wplainCsvSsid l dp).state = dp.state ∧
    (wplainCsvSsid l dp).last_log_line = dp.last_log_line ∧
    (wplainCsvSsid l dp).lat = dp.lat ∧
    (wplainCsvSsid l dp).lon = dp.lon ∧
    ((wplainCsvSsid l dp).last_ssid = dp.last_ssid ∨
      (wplainCsvSsid l dp).last_ssid.length < 64) := by
  unfold wplainCsvSsid
  cases strchrIdx (l.drop 18) ',' with
  | none => simp
  | some k =>
    simp only []
    by_cases hk : 0 < k ∧ k < 64
    · rw [if_pos hk]
      refine ⟨rfl, rfl, rfl, rfl, Or.inr ?_⟩
      show (List.take k (l.drop 18)).length < 64
      simp only [List.length_take]
      omega
    · rw [if_neg hk]
      simp

/-- When the SSID field has no terminating comma or does not fit its
    buffer, the plain-screen CSV SSID commit is the identity. -/
theorem wplainCsvSsid_skip (l : List Char) (dp : WPlainData) :
    (strchrIdx (l.drop 18) ',' = none → wplainCsvSsid l dp = dp) ∧
    (∀ k, strchrIdx (l.drop 18) ',' = some k → 64 ≤ k → wplainCsvSsid l dp = dp) := by
  constructor
  · intro h
    unfold wplainCsvSsid
    rw [h]
  · intro k h hk
    unfold wplainCsvSsid
    rw [h]
    have : ¬(0 < k ∧ k < 64) := by omega
    simp [this]

/-- The `"GPS: Lat="` branch of the plain callback touches only `lat`,
    `lon` and the dirty flag; each coordinate is either unchanged or
    replaced by a value that fits its 16-byte buffer. -/
theorem wplainGpsBranch_fields (s : List Char) (dp : WPlainData) :
    (wplainGpsBranch s dp).state = dp.state ∧
    (wplainGpsBranch s dp).last_log_line = dp.last_log_line ∧
    (wplainGpsBranch s dp).last_ssid = dp.last_ssid ∧
    ((wplainGpsBranch s dp).lat = dp.lat ∨ (wplainGpsBranch s dp).lat.length < 16) ∧
    ((wplainGpsBranch s dp).lon = dp.lon ∨ (wplainGpsBranch s dp).lon.length < 16) := by
  unfold wplainGpsBranch
  cases strchrIdx s ' ' with
  | none => simp
  | some latLen =>
    simp only []
    by_cases hl : latLen < 16
    · rw [if_pos hl]
      cases strstrIdx (s.drop latLen) (cs "Lon=") with
      | none =>
        refine ⟨rfl, rfl, rfl, Or.inr ?_, Or.inl rfl⟩
        show (List.take latLen s).length < 16
        simp only [List.length_take]
        omega
      | some j =>
        simp only []
        cases strchrIdx (((s.drop latLen).drop j).drop 4) ' ' with
        | none =>
          refine ⟨rfl, rfl, rfl, Or.inr ?_, Or.inl rfl⟩
          show (List.take latLen s).length < 16
          simp only [List.length_take]
          omega
        | some lonLen =>
          simp only []
          by_cases ho : lonLen < 16
          · rw [if_pos ho]
            refine ⟨rfl, rfl, rfl, Or.inr ?_, Or.inr ?_⟩
            · show (List.take latLen s).length < 16
              simp only [List.length_take]
              omega
            · show (List.take lonLen (((s.drop latLen).drop j).drop 4)).length < 16
              simp only [List.length_take]
              omega
          · rw [if_neg ho]
            refine ⟨rfl, rfl, rfl, Or.inr ?_, Or.inl rfl⟩
            show (List.take latLen s).length < 16
            simp only [List.length_take]
            omega
    · rw [if_neg hl]
      cases strstrIdx (s.drop latLen) (cs "Lon=") with
      | none => simp
      | some j =>
        simp only []
        cases strchrIdx (((s.drop latLen).drop j).drop 4) ' ' with
        | none => simp
        | some lonLen =>
          simp only []
          by_cases ho : lonLen < 16
          · rw [if_pos ho]
            refine ⟨rfl, rfl, rfl, Or.inl rfl, Or.inr ?_⟩
            show (List.take lonLen (((s.drop latLen).drop j).drop 4)).length < 16
            simp only [List.length_take]
            omega
          · rw [if_neg ho]
            simp

/-- The `"Logged "` branch of the plain callback touches only
    `last_log_line` and the dirty flag. -/
theorem wplainLoggedBranch_fields (s : List Char) (dp : WPlainData) :
    (wplainLoggedBranch s dp).state = dp.state ∧
    (wplainLoggedBranch s dp).last_ssid = dp.last_ssid ∧
    (wplainLoggedBranch s dp).lat = dp.lat ∧
    (wplainLoggedBranch s dp).lon = dp.lon := by
  unfold wplainLoggedBranch
  by_cases h : hasSub s (cs "networks to") = true
  · rw [if_pos h]
    exact ⟨rfl, rfl, rfl, rfl⟩
  · rw [if_neg h]
    simp

/-- On a MAC-CSV row the promisc callback runs exactly the CSV branch. -/
theorem promisc_cb_csv (l : List Char) (d : WardriveData) (h : isCsvRow l = true) :
    (uart_line_callback_promisc l d).1 = csvBranch l d := by
  unfold uart_line_callback_promisc
  rw [if_pos h]

/-- Field characterization of the promisc CSV branch: state and countdown
    fields untouched, network counter incremented, each string field either
    unchanged or replaced under its buffer bound, and the truncation cases
    leave the corresponding field unchanged. -/
theorem csvBranch_fields (l : List Char) (d : WardriveData) :
    (csvBranch l d).state = d.state ∧
    (csvBranch l d).gps_wait_elapsed = d.gps_wait_elapsed ∧
    (csvBranch l d).gps_wait_timeout = d.gps_wait_timeout ∧
    (csvBranch l d).unique_networks = d.unique_networks + 1 ∧
    ((csvBranch l d).last_ssid = d.last_ssid ∨ (csvBranch l d).last_ssid.length < 64) ∧
    ((csvBranch l d).lat = d.lat ∨ (csvBranch l d).lat.length < 16) ∧
    ((csvBranch l d).lon = d.lon ∨ (csvBranch l d).lon.length < 16) ∧
    ((commaPositions l).length < 8 →
      (csvBranch l d).lat = d.lat ∧ (csvBranch l d).lon = d.lon) ∧
    (strchrIdx (l.drop 18) ',' = none → (csvBranch l d).last_ssid = d.last_ssid) ∧
    (∀ k, strchrIdx (l.drop 18) ',' = some k → 64 ≤ k →
      (csvBranch l d).last_ssid = d.last_ssid) := by
  obtain ⟨s1, s2, s3, s4, s5, s6, s7, s8⟩ := csvSsidUpdate_fields l d
  obtain ⟨t1, t2, t3, t4, t5, t6, t7, t8, t9⟩ :=
    csvLatLonUpdate_fields l (csvSsidUpdate l d)
  obtain ⟨u1, u2⟩ := csvSsidUpdate_skip l d
  refine ⟨?_, ?_, ?_, ?_, ?_, ?_, ?_, ?_, ?_, ?_⟩
  · show (csvLatLonUpdate l (csvSsidUpdate l d)).state = d.state
    rw [t1, s1]
  · show (csvLatLonUpdate l (csvSsidUpdate l d)).gps_wait_elapsed = d.gps_wait_elapsed
    rw [t3, s4]
  · show (csvLatLonUpdate l (csvSsidUpdate l d)).gps_wait_timeout = d.gps_wait_timeout
    rw [t4, s5]
  · show (csvLatLonUpdate l (csvSsidUpdate l d)).unique_networks + 1 =
      d.unique_networks + 1
    rw [t5, s6]
  · show (csvLatLonUpdate l (csvSsidUpdate l d)).last_ssid = d.last_ssid ∨
      (csvLatLonUpdate l (csvSsidUpdate l d)).last_ssid.length < 64
    rw [t2]
    exact s8
  · show (csvLatLonUpdate l (csvSsidUpdate l d)).lat = d.lat ∨
      (csvLatLonUpdate l (csvSsidUpdate l d)).lat.length < 16
    rcases t7 with h | h
    · exact Or.inl (h.trans s2)
    · exact Or.inr h
  · show (csvLatLonUpdate l (csvSsidUpdate l d)).lon = d.lon ∨
      (csvLatLonUpdate l (csvSsidUpdate l d)).lon.length < 16
    rcases t8 with h | h
    · exact Or.inl (h.trans s3)
    · exact Or.inr h
  · intro hc
    have hid := t9 hc
    constructor
    · show (csvLatLonUpdate l (csvSsidUpdate l d)).lat = d.lat
      rw [hid, s2]
    · show (csvLatLonUpdate l (csvSsidUpdate l d)).lon = d.lon
      rw [hid, s3]
  · intro h
    show (csvLatLonUpdate l (csvSsidUpdate l d)).last_ssid = d.last_ssid
    rw [t2, u1 h]
  · intro k h hk
    show (csvLatLonUpdate l (csvSsidUpdate l d)).last_ssid = d.last_ssid
    rw [t2, u2 k h hk]

/-- The CSV fall-through block of the plain callback: the non-SSID fields
    are untouched, the SSID is unchanged or bounded, and the truncation
    cases are identities. -/
theorem wplainAfterCsv_fields (l : List Char) (dp : WPlainData) :
    (wplainAfterCsv l dp).state = dp.state ∧
    (wplainAfterCsv l dp).last_log_line = dp.last_log_line ∧
    (wplainAfterCsv l dp).lat = dp.lat ∧
    (wplainAfterCsv l dp).lon = dp.lon ∧
    ((wplainAfterCsv l dp).last_ssid = dp.last_ssid ∨
      (wplainAfterCsv l dp).last_ssid.length < 64) ∧
    (strchrIdx (l.drop 18) ',' = none → wplainAfterCsv l dp = dp) ∧
    (∀ k, strchrIdx (l.drop 18) ',' = some k → 64 ≤ k → wplainAfterCsv l dp = dp) := by
  unfold wplainAfterCsv
  by_cases h : isCsvRow l = true
  · rw [if_pos h]
    obtain ⟨f1, f2, f3, f4, f5⟩ := wplainCsvSsid_fields l dp
    obtain ⟨g1, g2⟩ := wplainCsvSsid_skip l dp
    exact ⟨f1, f2, f3, f4, f5, g1, g2⟩
  · rw [if_neg h]
    simp

/-- The plain wardrive callback relative to its CSV fall-through state: the
    SSID is exactly the fall-through SSID (no later branch writes it), and
    lat/lon are the fall-through values unless a bounded GPS write occurs. -/
theorem plain_cb_fields (l : List Char) (dp : WPlainData) :
    (uart_line_callback_plain l dp).1.last_ssid = (wplainAfterCsv l dp).last_ssid ∧
    ((uart_line_callback_plain l dp).1.lat = (wplainAfterCsv l dp).lat ∨
      (uart_line_callback_plain l dp).1.lat.length < 16) ∧
    ((uart_line_callback_plain l dp).1.lon = (wplainAfterCsv l dp).lon ∨
      (uart_line_callback_plain l dp).1.lon.length < 16) := by
  unfold uart_line_callback_plain
  by_cases h1 : hasSub l (cs "GPS fix obtained") = true
  · simp [h1]
  · simp only [h1, if_false]
    cases h2 : strstrIdx l (cs "GPS: Lat=") with
    | some i =>
      simp only []
      obtain ⟨_, _, g3, g4, g5⟩ :=
        wplainGpsBranch_fields ((l.drop i).drop 9) (wplainAfterCsv l dp)
      exact ⟨g3, g4, g5⟩
    | none =>
      simp only []
      cases h3 : strstrIdx l (cs "Logged ") with
      | some i =>
        simp only []
        obtain ⟨_, l2, l3, l4⟩ :=
          wplainLoggedBranch_fields (l.drop i) (wplainAfterCsv l dp)
        exact ⟨l2, Or.inl l3, Or.inl l4⟩
      | none => exact ⟨rfl, Or.inl rfl, Or.inl rfl⟩

/-- C3: on a recognized MAC-CSV row, every write of either wardrive line
    callback into `last_ssid` / `lat` / `lon` is committed only under the
    destination-buffer length check (so each field is unchanged or holds a
    value that fits with its NUL terminator), and a truncated row — fewer
    than 8 commas, a missing field terminator, or a field too long for its
    buffer — leaves the corresponding previously parsed field unchanged. -/
theorem c3_csv_extraction_bounds_safe :
    ∀ (l : List Char) (d : WardriveData) (dp : WPlainData), isCsvRow l = true →
      ((uart_line_callback_promisc l d).1.last_ssid = d.last_ssid ∨
        (uart_line_callback_promisc l d).1.last_ssid.length < 64) ∧
      ((uart_line_callback_promisc l d).1.lat = d.lat ∨
        (uart_line_callback_promisc l d).1.lat.length < 16) ∧
      ((uart_line_callback_promisc l d).1.lon = d.lon ∨
        (uart_line_callback_promisc l d).1.lon.length < 16) ∧
      ((commaPositions l).length < 8 →
        (uart_line_callback_promisc l d).1.lat = d.lat ∧
        (uart_line_callback_promisc l d).1.lon = d.lon) ∧
      (strchrIdx (l.drop 18) ',' = none →
        (uart_line_callback_promisc l d).1.last_ssid = d.last_ssid) ∧
      (∀ k, strchrIdx (l.drop 18) ',' = some k → 64 ≤ k →
        (uart_line_callback_promisc l d).1.last_ssid = d.last_ssid) ∧
      ((uart_line_callback_plain l dp).1.last_ssid = dp.last_ssid ∨
        (uart_line_callback_plain l dp).1.last_ssid.length < 64) ∧
      ((uart_line_callback_plain l dp).1.lat = dp.lat ∨
        (uart_line_callback_plain l dp).1.lat.length < 16) ∧
      ((uart_line_callback_plain l dp).1.lon = dp.lon ∨
        (uart_line_callback_plain l dp).1.lon.length < 16) ∧
      (strchrIdx (l.drop 18) ',' = none →
        (uart_line_callback_plain l dp).1.last_ssid = dp.last_ssid) ∧
      (∀ k, strchrIdx (l.drop 18) ',' = some k → 64 ≤ k →
        (uart_line_callback_plain l dp).1.last_ssid = dp.last_ssid) := by
  intro l d dp h
  have hp := promisc_cb_csv l d h
  obtain ⟨_, _, _, _, b5, b6, b7, b8, b9, b10⟩ := csvBranch_fields l d
  obtain ⟨a1, a2, a3, a4, a5, a6, a7⟩ := wplainAfterCsv_fields l dp
  obtain ⟨p1, p2, p3⟩ := plain_cb_fields l dp
  rw [hp]
  refine ⟨b5, b6, b7, b8, b9, b10, ?_, ?_, ?_, ?_, ?_⟩
  · rw [p1]
    exact a5
  · rcases p2 with hh | hh
    · exact Or.inl (hh.trans a3)
    · exact Or.inr hh
  · rcases p3 with hh | hh
    · exact Or.inl (hh.trans a4)
    · exact Or.inr hh
  · intro hn
    rw [p1, a6 hn]
  · intro k hk h64
    rw [p1, a7 k hk h64]

/-- C3 witness: a complete 11-field CSV row and a row whose SSID field is
    longer than the 64-byte buffer, at the freshly created contexts. -/
theorem c3_csv_extraction_bounds_safe_witness :
    isCsvRow (cs "AA:BB:CC:DD:EE:FF,Home,[WPA2],2024,6,-60,12.3,4.5,10,5,WIFI") = true ∧
    ((uart_line_callback_promisc
        (cs "AA:BB:CC:DD:EE:FF,Home,[WPA2],2024,6,-60,12.3,4.5,10,5,WIFI")
        wardrive_init).1.last_ssid = wardrive_init.last_ssid ∨
      (uart_line_callback_promisc
        (cs "AA:BB:CC:DD:EE:FF,Home,[WPA2],2024,6,-60,12.3,4.5,10,5,WIFI")
        wardrive_init).1.last_ssid.length < 64) ∧
    ((uart_line_callback_plain
        (cs "AA:BB:CC:DD:EE:FF,Home,[WPA2],2024,6,-60,12.3,4.5,10,5,WIFI")
        wplain_init).1.lat = wplain_init.lat ∨
      (uart_line_callback_plain
        (cs "AA:BB:CC:DD:EE:FF,Home,[WPA2],2024,6,-60,12.3,4.5,10,5,WIFI")
        wplain_init).1.lat.length < 16) :=
  ⟨by decide,
    (c3_csv_extraction_bounds_safe
      (cs "AA:BB:CC:DD:EE:FF,Home,[WPA2],2024,6,-60,12.3,4.5,10,5,WIFI")
      wardrive_init wplain_init (by decide)).1,
    (c3_csv_extraction_bounds_safe
      (cs "AA:BB:CC:DD:EE:FF,Home,[WPA2],2024,6,-60,12.3,4.5,10,5,WIFI")
      wardrive_init wplain_init (by decide)).2.2.2.2.2.2.2.1⟩

/-- C5 (amended): in the promisc wardrive callback a MAC-CSV row commits
    only the CSV recognizer's updates and returns — the screen state and
    the countdown fields stay untouched and the network counter increments
    even when the line contains a later recognizer's trigger substring.  In
    the plain wardrive callback, however, the CSV SSID extraction falls
    through by design, so a later recognizer (e.g. the `"GPS fix obtained"`
    state transition) still fires on the same line. -/
theorem c5_first_match_wins_amended :
    ∀ (l : List Char) (d : WardriveData) (dp : WPlainData), isCsvRow l = true →
      (uart_line_callback_promisc l d).1 = csvBranch l d ∧
      (uart_line_callback_promisc l d).1.state = d.state ∧
      (uart_line_callback_promisc l d).1.gps_wait_elapsed = d.gps_wait_elapsed ∧
      (uart_line_callback_promisc l d).1.gps_wait_timeout = d.gps_wait_timeout ∧
      (uart_line_callback_promisc l d).1.unique_networks = d.unique_networks + 1 ∧
      (hasSub l (cs "GPS fix obtained") = true →
        (uart_line_callback_plain l dp).1.state = WPlainState.running) := by
  intro l d dp h
  have hp := promisc_cb_csv l d h
  obtain ⟨b1, b2, b3, b4, _⟩ := csvBranch_fields l d
  rw [hp]
  refine ⟨rfl, b1, b2, b3, b4, ?_⟩
  intro hobt
  unfold uart_line_callback_plain
  simp [hobt]

/-- C5 witness: the MAC-CSV row whose SSID field is a later recognizer's
    trigger `"GPS fix obtained"`, at the freshly created contexts. -/
theorem c5_first_match_wins_amended_witness :
    isCsvRow (cs "AA:BB:CC:DD:EE:FF,GPS fix obtained,x") = true ∧
    hasSub (cs "AA:BB:CC:DD:EE:FF,GPS fix obtained,x") (cs "GPS fix obtained") = true ∧
    (uart_line_callback_promisc (cs "AA:BB:CC:DD:EE:FF,GPS fix obtained,x")
      wardrive_init).1.state = wardrive_init.state ∧
    (uart_line_callback_plain (cs "AA:BB:CC:DD:EE:FF,GPS fix obtained,x")
      wplain_init).1.state = WPlainState.running :=
  ⟨by decide, by decide,
    (c5_first_match_wins_amended (cs "AA:BB:CC:DD:EE:FF,GPS fix obtained,x")
      wardrive_init wplain_init (by decide)).2.1,
    (c5_first_match_wins_amended (cs "AA:BB:CC:DD:EE:FF,GPS fix obtained,x")
      wardrive_init wplain_init (by decide)).2.2.2.2.2 (by decide)⟩

/-- A response containing `"min"` with a parsable value updates the min
    pair and decrements the pending count. -/
theorem on_uart_min_line (l : List Char) (d : ChannelTimeData)
    (hmin : hasSub l (cs "min") = true) (hv : 0 ≤ parse_integer_response l) :
    on_uart_response_update l d =
      { d with min_value := parse_integer_response l,
               edited_min := parse_integer_response l,
               loading_count := d.loading_count - 1 } := by
  unfold on_uart_response_update
  simp [hmin, hv]

/-- A response containing `"max"` but not `"min"`, with a parsable value,
    updates the max pair and decrements the pending count. -/
theorem on_uart_max_line (l : List Char) (d : ChannelTimeData)
    (hmin : hasSub l (cs "min") = false) (hmax : hasSub l (cs "max") = true)
    (hv : 0 ≤ parse_integer_response l) :
    on_uart_response_update l d =
      { d with max_value := parse_integer_response l,
               edited_max := parse_integer_response l,
               loading_count := d.loading_count - 1 } := by
  unfold on_uart_response_update
  simp [hmin, hmax, hv]

/-- An unlabelled parsable response with two responses pending updates the
    min pair (positional fallback, first slot). -/
theorem on_uart_unlabeled_first (l : List Char) (d : ChannelTimeData)
    (hmin : hasSub l (cs "min") = false) (hmax : hasSub l (cs "max") = false)
    (hv : 0 ≤ parse_integer_response l) (h2 : d.loading_count = 2) :
    on_uart_response_update l d =
      { d with min_value := parse_integer_response l,
               edited_min := parse_integer_response l,
               loading_count := d.loading_count - 1 } := by
  unfold on_uart_response_update
  simp [hmin, hmax, hv, h2]

/-- An unlabelled parsable response with one response pending updates the
    max pair (positional fallback, second slot). -/
theorem on_uart_unlabeled_second (l : List Char) (d : ChannelTimeData)
    (hmin : hasSub l (cs "min") = false) (hmax : hasSub l (cs "max") = false)
    (hv : 0 ≤ parse_integer_response l) (h1 : d.loading_count = 1) :
    on_uart_response_update l d =
      { d with max_value := parse_integer_response l,
               edited_max := parse_integer_response l,
               loading_count := d.loading_count - 1 } := by
  unfold on_uart_response_update
  simp [hmin, hmax, hv, h1]

/-- With responses pending, `on_uart_response` is the field update followed
    by the completion check. -/
theorem on_uart_dispatch (l : List Char) (d : ChannelTimeData)
    (hpos : ¬ d.loading_count ≤ 0) :
    on_uart_response l d =
      if (on_uart_response_update l d).loading_count = 0 then
        ({ (on_uart_response_update l d) with
            loading := false,
            status_msg := [],
            needs_redraw := true }, [Effect.clearCb])
      else (on_uart_response_update l d, []) := by
  unfold on_uart_response
  rw [if_neg hpos]

/-- A response that does not complete loading leaves only the field update. -/
theorem on_uart_step_noclear (l : List Char) (d : ChannelTimeData)
    (hpos : ¬ d.loading_count ≤ 0)
    (hne : ¬ (on_uart_response_update l d).loading_count = 0) :
    on_uart_response l d = (on_uart_response_update l d, []) := by
  rw [on_uart_dispatch l d hpos, if_neg hne]

/-- The response that completes loading also ends the loading state and
    clears the line registration. -/
theorem on_uart_step_clear (l : List Char) (d : ChannelTimeData)
    (hpos : ¬ d.loading_count ≤ 0)
    (hz : (on_uart_response_update l d).loading_count = 0) :
    on_uart_response l d =
      ({ (on_uart_response_update l d) with
          loading := false,
          status_msg := [],
          needs_redraw := true }, [Effect.clearCb]) := by
  rw [on_uart_dispatch l d hpos, if_pos hz]

/-- Two pending responses, dispatched one after the other: the first one
    only updates its fields, the second one additionally ends loading and
    clears the registration. -/
theorem two_responses (lA lB : List Char) (d : ChannelTimeData)
    (h2 : d.loading_count = 2)
    (dA : ChannelTimeData) (hA : on_uart_response_update lA d = dA)
    (hA1 : dA.loading_count = 1)
    (dB : ChannelTimeData) (hB : on_uart_response_update lB dA = dB)
    (hB0 : dB.loading_count = 0) :
    on_uart_response lB (on_uart_response lA d).1 =
      ({ dB with loading := false, status_msg := [], needs_redraw := true },
       [Effect.clearCb]) := by
  have s1 : (on_uart_response lA d).1 = dA := by
    rw [on_uart_step_noclear lA d (by omega) (by rw [hA]; omega)]
    exact hA
  rw [s1, on_uart_step_clear lB dA (by omega) (by rw [hB]; exact hB0), hB]

/-- Outside the loading state, ENTER and SPACE run the validate-then-send
    path of `on_key`. -/
theorem on_key_save (d : ChannelTimeData) (k : Key) (ok1 ok2 : Bool)
    (hL : d.loading = false) (hk : k = Key.enter ∨ k = Key.space) :
    on_key_channel_time d k ok1 ok2 =
      (match validate_values d with
       | some msg => ({ d with status_msg := msg }, [Effect.draw])
       | none =>
         if ok1 && ok2 then
           ({ d with
               min_value := d.edited_min,
               max_value := d.edited_max,
               saved := true,
               status_msg := [] },
            [Effect.sendSetMin d.edited_min, Effect.sendSetMax d.edited_max,
             Effect.draw])
         else
           ({ d with status_msg := cs "Send failed!" },
            [Effect.sendSetMin d.edited_min, Effect.sendSetMax d.edited_max,
             Effect.draw])) := by
  rcases hk with rfl | rfl <;>
    (unfold on_key_channel_time; rw [hL]; rfl)

/-- C10: outside the loading state, ENTER (or SPACE) transmits the two
    `channel_time set` commands iff 100 ≤ edited_min ≤ 1500,
    100 ≤ edited_max ≤ 1500 and edited_min < edited_max; when a condition
    fails, nothing is sent, the stored values are unchanged, and the status
    message is the corresponding range or ordering error. -/
theorem c10_enter_validation_gate :
    ∀ (d : ChannelTimeData) (k : Key) (ok1 ok2 : Bool),
      d.loading = false → (k = Key.enter ∨ k = Key.space) →
      ((Effect.sendSetMin d.edited_min ∈ (on_key_channel_time d k ok1 ok2).2 ∧
        Effect.sendSetMax d.edited_max ∈ (on_key_channel_time d k ok1 ok2).2) ↔
        (100 ≤ d.edited_min ∧ d.edited_min ≤ 1500 ∧ 100 ≤ d.edited_max ∧
          d.edited_max ≤ 1500 ∧ d.edited_min < d.edited_max)) ∧
      ((d.edited_min < 100 ∨ 1500 < d.edited_min) →
        (on_key_channel_time d k ok1 ok2).2 = [Effect.draw] ∧
        (on_key_channel_time d k ok1 ok2).1.min_value = d.min_value ∧
        (on_key_channel_time d k ok1 ok2).1.max_value = d.max_value ∧
        (on_key_channel_time d k ok1 ok2).1.status_msg =
          cs "Min must be 100-1500 ms") ∧
      (100 ≤ d.edited_min → d.edited_min ≤ 1500 →
        (d.edited_max < 100 ∨ 1500 < d.edited_max) →
        (on_key_channel_time d k ok1 ok2).2 = [Effect.draw] ∧
        (on_key_channel_time d k ok1 ok2).1.min_value = d.min_value ∧
        (on_key_channel_time d k ok1 ok2).1.max_value = d.max_value ∧
        (on_key_channel_time d k ok1 ok2).1.status_msg =
          cs "Max must be 100-1500 ms") ∧
      (100 ≤ d.edited_min → d.edited_min ≤ 1500 → 100 ≤ d.edited_max →
        d.edited_max ≤ 1500 → d.edited_max ≤ d.edited_min →
        (on_key_channel_time d k ok1 ok2).2 = [Effect.draw] ∧
        (on_key_channel_time d k ok1 ok2).1.min_value = d.min_value ∧
        (on_key_channel_time d k ok1 ok2).1.max_value = d.max_value ∧
        (on_key_channel_time d k ok1 ok2).1.status_msg =
          cs "Min must be < Max") := by
  intro d k ok1 ok2 hL hk
  rw [on_key_save d k ok1 ok2 hL hk]
  unfold validate_values
  by_cases c1 : d.edited_min < 100 ∨ 1500 < d.edited_min
  · rw [if_pos c1]
    refine ⟨?_, fun _ => ⟨rfl, rfl, rfl, rfl⟩, ?_, ?_⟩
    · constructor
      · rintro ⟨hmem, -⟩
        exact absurd hmem (by simp)
      · rintro ⟨hc1, hc2, -⟩
        exact absurd c1 (by omega)
    · intro hA hB hC
      exact absurd c1 (by omega)
    · intro hA hB hC hD hE
      exact absurd c1 (by omega)
  · rw [if_neg c1]
    by_cases c2 : d.edited_max < 100 ∨ 1500 < d.edited_max
    · rw [if_pos c2]
      refine ⟨?_, fun hc => absurd hc c1, fun _ _ _ => ⟨rfl, rfl, rfl, rfl⟩, ?_⟩
      · constructor
        · rintro ⟨hmem, -⟩
          exact absurd hmem (by simp)
        · rintro ⟨-, -, hc3, hc4, -⟩
          exact absurd c2 (by omega)
      · intro hA hB hC hD hE
        exact absurd c2 (by omega)
    · rw [if_neg c2]
      by_cases c3 : d.edited_max ≤ d.edited_min
      · rw [if_pos c3]
        refine ⟨?_, fun hc => absurd hc c1, fun _ _ hc => absurd hc c2,
          fun _ _ _ _ _ => ⟨rfl, rfl, rfl, rfl⟩⟩
        constructor
        · rintro ⟨hmem, -⟩
          exact absurd hmem (by simp)
        · rintro ⟨-, -, -, -, hc5⟩
          exact absurd hc5 (by omega)
      · rw [if_neg c3]
        refine ⟨?_, fun hc => absurd hc c1, fun _ _ hc => absurd hc c2,
          fun _ _ _ _ hc => absurd hc c3⟩
        constructor
        · intro _
          omega
        · intro _
          cases hok : ok1 && ok2 <;> simp [hok]

/-- C10 witness: a valid edited pair (150, 400) has both set commands in
    the effect list; an invalid pair (min 50) yields the min range error
    with no state change. -/
theorem c10_enter_validation_gate_witness :
    (Effect.sendSetMin 150 ∈
      (on_key_channel_time
        { channel_time_init with loading := false, edited_min := 150,
                                 edited_max := 400 } Key.enter true true).2 ∧
     Effect.sendSetMax 400 ∈
      (on_key_channel_time
        { channel_time_init with loading := false, edited_min := 150,
                                 edited_max := 400 } Key.enter true true).2) ∧
    (on_key_channel_time
      { channel_time_init with loading := false, edited_min := 50 }
      Key.enter true true).1.status_msg = cs "Min must be 100-1500 ms" :=
  ⟨(c10_enter_validation_gate
      { channel_time_init with loading := false, edited_min := 150,
                               edited_max := 400 }
      Key.enter true true rfl (Or.inl rfl)).1.mpr (by decide),
   ((c10_enter_validation_gate
      { channel_time_init with loading := false, edited_min := 50 }
      Key.enter true true rfl (Or.inl rfl)).2.1 (by decide)).2.2.2⟩

/-- C8: with valid edited values and a failing send status from either
    `uart_send_command`, ENTER sets the status to "Send failed!", leaves
    the stored and edited values unchanged, sends each command exactly once
    (no automatic resend), and leaves the screen in a state where the same
    ENTER press can be repeated — and then succeeds. -/
theorem c8_send_failure_status_and_retry :
    ∀ (d : ChannelTimeData) (ok1 ok2 : Bool),
      d.loading = false → validate_values d = none → (ok1 && ok2) = false →
      (on_key_channel_time d Key.enter ok1 ok2).1.status_msg = cs "Send failed!" ∧
      (on_key_channel_time d Key.enter ok1 ok2).1.min_value = d.min_value ∧
      (on_key_channel_time d Key.enter ok1 ok2).1.max_value = d.max_value ∧
      (on_key_channel_time d Key.enter ok1 ok2).1.edited_min = d.edited_min ∧
      (on_key_channel_time d Key.enter ok1 ok2).1.edited_max = d.edited_max ∧
      (on_key_channel_time d Key.enter ok1 ok2).1.loading = false ∧
      (on_key_channel_time d Key.enter ok1 ok2).2 =
        [Effect.sendSetMin d.edited_min, Effect.sendSetMax d.edited_max,
         Effect.draw] ∧
      (on_key_channel_time (on_key_channel_time d Key.enter ok1 ok2).1
        Key.enter true true).1.saved = true ∧
      (on_key_channel_time (on_key_channel_time d Key.enter ok1 ok2).1
        Key.enter true true).1.min_value = d.edited_min ∧
      (on_key_channel_time (on_key_channel_time d Key.enter ok1 ok2).1
        Key.enter true true).1.max_value = d.edited_max := by
  intro d ok1 ok2 hL hv hf
  have h1 : on_key_channel_time d Key.enter ok1 ok2 =
      ({ d with status_msg := cs "Send failed!" },
       [Effect.sendSetMin d.edited_min, Effect.sendSetMax d.edited_max,
        Effect.draw]) := by
    rw [on_key_save d Key.enter ok1 ok2 hL (Or.inl rfl), hv]
    simp only [hf, Bool.false_eq_true, if_false]
  have h1p : (on_key_channel_time d Key.enter ok1 ok2).1 =
      { d with status_msg := cs "Send failed!" } := by
    rw [h1]
  have hv2 : validate_values { d with status_msg := cs "Send failed!" } = none := by
    unfold validate_values at hv ⊢
    exact hv
  have h2 : on_key_channel_time { d with status_msg := cs "Send failed!" }
      Key.enter true true =
      ({ d with
          min_value := d.edited_min,
          max_value := d.edited_max,
          saved := true,
          status_msg := [] },
       [Effect.sendSetMin d.edited_min, Effect.sendSetMax d.edited_max,
        Effect.draw]) := by
    have hL2 : ({ d with status_msg := cs "Send failed!" } :
        ChannelTimeData).loading = false := hL
    rw [on_key_save { d with status_msg := cs "Send failed!" } Key.enter true true
      hL2 (Or.inl rfl), hv2]
    rfl
  rw [h1p, h2, h1]
  exact ⟨rfl, rfl, rfl, rfl, rfl, hL, rfl, rfl, rfl, rfl⟩

/-- C8 witness: edited pair (150, 400), first send failing. -/
theorem c8_send_failure_status_and_retry_witness :
    (on_key_channel_time
      { channel_time_init with loading := false, edited_min := 150,
                               edited_max := 400 }
      Key.enter false true).1.status_msg = cs "Send failed!" ∧
    (on_key_channel_time (on_key_channel_time
      { channel_time_init with loading := false, edited_min := 150,
                               edited_max := 400 }
      Key.enter false true).1 Key.enter true true).1.saved = true :=
  ⟨(c8_send_failure_status_and_retry
      { channel_time_init with loading := false, edited_min := 150,
                               edited_max := 400 }
      false true rfl (by decide) rfl).1,
   (c8_send_failure_status_and_retry
      { channel_time_init with loading := false, edited_min := 150,
                               edited_max := 400 }
      false true rfl (by decide) rfl).2.2.2.2.2.2.2.1⟩

/-- C6: starting in the loading state with two responses pending, the
    labelled lines "max: 300" and "min: 100" populate min/max correctly in
    either arrival order, end the loading state, and the completing
    response clears the line registration; unlabelled responses (no "min"
    or "max" substring) are parsed by skipping to the first digit run and
    assigned positionally, the first to min, the second to max. -/
theorem c6_channel_time_out_of_order_loading :
    ∀ d : ChannelTimeData, d.loading = true → d.loading_count = 2 →
      ((on_uart_response (cs "min: 100")
          (on_uart_response (cs "max: 300") d).1).1.min_value = 100 ∧
       (on_uart_response (cs "min: 100")
          (on_uart_response (cs "max: 300") d).1).1.edited_min = 100 ∧
       (on_uart_response (cs "min: 100")
          (on_uart_response (cs "max: 300") d).1).1.max_value = 300 ∧
       (on_uart_response (cs "min: 100")
          (on_uart_response (cs "max: 300") d).1).1.edited_max = 300 ∧
       (on_uart_response (cs "min: 100")
          (on_uart_response (cs "max: 300") d).1).1.loading = false ∧
       (on_uart_response (cs "min: 100")
          (on_uart_response (cs "max: 300") d).1).2 = [Effect.clearCb]) ∧
      ((on_uart_response (cs "max: 300")
          (on_uart_response (cs "min: 100") d).1).1.min_value = 100 ∧
       (on_uart_response (cs "max: 300")
          (on_uart_response (cs "min: 100") d).1).1.edited_min = 100 ∧
       (on_uart_response (cs "max: 300")
          (on_uart_response (cs "min: 100") d).1).1.max_value = 300 ∧
       (on_uart_response (cs "max: 300")
          (on_uart_response (cs "min: 100") d).1).1.edited_max = 300 ∧
       (on_uart_response (cs "max: 300")
          (on_uart_response (cs "min: 100") d).1).1.loading = false ∧
       (on_uart_response (cs "max: 300")
          (on_uart_response (cs "min: 100") d).1).2 = [Effect.clearCb]) ∧
      (∀ lA lB : List Char,
        hasSub lA (cs "min") = false → hasSub lA (cs "max") = false →
        0 ≤ parse_integer_response lA →
        hasSub lB (cs "min") = false → hasSub lB (cs "max") = false →
        0 ≤ parse_integer_response lB →
        (on_uart_response lA d).1.min_value = parse_integer_response lA ∧
        (on_uart_response lA d).1.edited_min = parse_integer_response lA ∧
        (on_uart_response lA d).1.loading_count = 1 ∧
        (on_uart_response lB
          (on_uart_response lA d).1).1.max_value = parse_integer_response lB ∧
        (on_uart_response lB
          (on_uart_response lA d).1).1.edited_max = parse_integer_response lB ∧
        (on_uart_response lB (on_uart_response lA d).1).1.loading = false ∧
        (on_uart_response lB (on_uart_response lA d).1).2 = [Effect.clearCb]) := by
  intro d hload h2
  have cA1 : hasSub (cs "max: 300") (cs "min") = false := by decide
  have cA2 : hasSub (cs "max: 300") (cs "max") = true := by decide
  have cA3 : parse_integer_response (cs "max: 300") = 300 := by decide
  have cA4 : (0 : Int) ≤ parse_integer_response (cs "max: 300") := by decide
  have cB1 : hasSub (cs "min: 100") (cs "min") = true := by decide
  have cB3 : parse_integer_response (cs "min: 100") = 100 := by decide
  have cB4 : (0 : Int) ≤ parse_integer_response (cs "min: 100") := by decide
  refine ⟨?_, ?_, ?_⟩
  · have hA : on_uart_response_update (cs "max: 300") d =
        { d with max_value := 300, edited_max := 300,
                 loading_count := d.loading_count - 1 } := by
      rw [on_uart_max_line _ _ cA1 cA2 cA4, cA3]
    have hB : on_uart_response_update (cs "min: 100")
        { d with max_value := 300, edited_max := 300,
                 loading_count := d.loading_count - 1 } =
        { d with max_value := 300, edited_max := 300, min_value := 100,
                 edited_min := 100, loading_count := d.loading_count - 1 - 1 } := by
      rw [on_uart_min_line _ _ cB1 cB4, cB3]
    have ht := two_responses (cs "max: 300") (cs "min: 100") d h2
      _ hA (by show d.loading_count - 1 = 1; omega)
      _ hB (by show d.loading_count - 1 - 1 = 0; omega)
    rw [ht]
    exact ⟨rfl, rfl, rfl, rfl, rfl, rfl⟩
  · have hA : on_uart_response_update (cs "min: 100") d =
        { d with min_value := 100, edited_min := 100,
                 loading_count := d.loading_count - 1 } := by
      rw [on_uart_min_line _ _ cB1 cB4, cB3]
    have hB : on_uart_response_update (cs "max: 300")
        { d with min_value := 100, edited_min := 100,
                 loading_count := d.loading_count - 1 } =
        { d with min_value := 100, edited_min := 100, max_value := 300,
                 edited_max := 300, loading_count := d.loading_count - 1 - 1 } := by
      rw [on_uart_max_line _ _ cA1 cA2 cA4, cA3]
    have ht := two_responses (cs "min: 100") (cs "max: 300") d h2
      _ hA (by show d.loading_count - 1 = 1; omega)
      _ hB (by show d.loading_count - 1 - 1 = 0; omega)
    rw [ht]
    exact ⟨rfl, rfl, rfl, rfl, rfl, rfl⟩
  · intro lA lB u1 u2 u3 u4 u5 u6
    have hA : on_uart_response_update lA d =
        { d with min_value := parse_integer_response lA,
                 edited_min := parse_integer_response lA,
                 loading_count := d.loading_count - 1 } :=
      on_uart_unlabeled_first lA d u1 u2 u3 h2
    have s1 : (on_uart_response lA d).1 =
        { d with min_value := parse_integer_response lA,
                 edited_min := parse_integer_response lA,
                 loading_count := d.loading_count - 1 } := by
      rw [on_uart_step_noclear lA d (by omega)
        (by rw [hA]; show ¬ (d.loading_count - 1 = 0); omega)]
      exact hA
    have hB : on_uart_response_update lB
        { d with min_value := parse_integer_response lA,
                 edited_min := parse_integer_response lA,
                 loading_count := d.loading_count - 1 } =
        { d with min_value := parse_integer_response lA,
                 edited_min := parse_integer_response lA,
                 max_value := parse_integer_response lB,
                 edited_max := parse_integer_response lB,
                 loading_count := d.loading_count - 1 - 1 } := by
      rw [on_uart_unlabeled_second lB _ u4 u5 u6
        (by show d.loading_count - 1 = 1; omega)]
    have ht := two_responses lA lB d h2
      _ hA (by show d.loading_count - 1 = 1; omega)
      _ hB (by show d.loading_count - 1 - 1 = 0; omega)
    rw [ht, s1]
    refine ⟨rfl, rfl, by show d.loading_count - 1 = 1; omega, rfl, rfl, rfl, rfl⟩

/-- C6 witness: the freshly created loading context with out-of-order
    labelled responses, and an unlabelled pair "foo 42" / "bar 7". -/
theorem c6_channel_time_out_of_order_loading_witness :
    (on_uart_response (cs "min: 100")
      (on_uart_response (cs "max: 300") channel_time_init).1).1.min_value = 100 ∧
    (on_uart_response (cs "min: 100")
      (on_uart_response (cs "max: 300") channel_time_init).1).1.max_value = 300 ∧
    (on_uart_response (cs "foo 42") channel_time_init).1.min_value =
      parse_integer_response (cs "foo 42") ∧
    (on_uart_response (cs "bar 7")
      (on_uart_response (cs "foo 42") channel_time_init).1).1.max_value =
      parse_integer_response (cs "bar 7") :=
  ⟨(c6_channel_time_out_of_order_loading channel_time_init rfl rfl).1.1,
   (c6_channel_time_out_of_order_loading channel_time_init rfl rfl).1.2.2.1,
   ((c6_channel_time_out_of_order_loading channel_time_init rfl rfl).2.2
     (cs "foo 42") (cs "bar 7") (by decide) (by decide) (by decide)
     (by decide) (by decide) (by decide)).1,
   ((c6_channel_time_out_of_order_loading channel_time_init rfl rfl).2.2
     (cs "foo 42") (cs "bar 7") (by decide) (by decide) (by decide)
     (by decide) (by decide) (by decide)).2.2.2.1⟩
